import Mathlib

/-!
Verification of the table-transform pipeline of `src/app.py` (ExportDataESG).

The pipeline reads a CSV into a table, drops configured columns, deduplicates
rows over the configured key columns (pandas `drop_duplicates(subset, keep='first')`),
stringifies the `Value` column and partitions rows by cell length against a
threshold, and serializes the two partitions (CSV for overflow, Excel for primary).

Shallow embedding conventions:
* a pandas cell is `Cell` (a text scalar, an integer scalar, or NaN/missing);
* a row is an association list from column name to cell, a frame is a column
  list plus a row list;
* `pd.read_csv` is abstracted as the pipeline input `Except String DataFrame`
  (an `.error` value is an unparsable byte stream);
* `df.to_excel` is abstracted by an oracle `DataFrame → Option String`
  (`some e` means the call raised exception `e`);
* pandas `drop_duplicates(subset=[], ...)` on a frame with at least one row
  raises `ValueError: not enough values to unpack (expected 2, got 0)`
  (the `else` arm of `DataFrame.duplicated` unpacks a `zip` over the empty
  column selection); this is modelled as an `Except.error`, and `process_data`
  itself returns `Except String PResult` since that call is not guarded by
  any `try`/`except` in the source.
-/

namespace ExportDataESG

/-- A pandas scalar cell: a string, an integer, or NaN (missing). -/
inductive Cell where
  | text (s : String)
  | int (n : Int)
  | na
deriving DecidableEq

/-- Python `str(x)` on a cell, as used by `astype(str)`: strings are unchanged,
numbers render to their text form, NaN renders to the literal text `"nan"`. -/
def cellToStr : Cell → String
  | .text s => s
  | .int n => toString n
  | .na => "nan"

/-- pandas `Series.fillna(repl)` on one cell: replaces NaN, leaves the rest. -/
def cellFillna (repl : String) : Cell → Cell
  | .na => .text repl
  | c => c

/-- The composed update applied to the `Value` column in line 62 of `app.py`:
`astype(str)` followed by `fillna('')`. -/
def astypeStrFillna (c : Cell) : Cell :=
  cellFillna "" (.text (cellToStr c))

/-- One record: column name ↦ cell. -/
abbrev Row := List (String × Cell)

/-- The cell stored in row `r` under column `c` (NaN if the column is absent). -/
def getCell (r : Row) (c : String) : Cell :=
  match r.find? (fun p => decide (p.1 = c)) with
  | some p => p.2
  | none => Cell.na

/-- An in-memory pandas DataFrame: ordered column names and ordered rows. -/
structure DataFrame where
  cols : List String
  rows : List Row
deriving DecidableEq

/-- Rows are well formed when each carries exactly the frame's column set. -/
def DataFrame.Wf (df : DataFrame) : Prop :=
  ∀ r ∈ df.rows, r.map Prod.fst = df.cols

/-- `columns_to_drop` from `app.py` line 34. -/
def columns_to_drop : List String :=
  ["DefinedSchemaSystemId", "ESRS", "DR", "SUBDR", "TableLineItems", "ElementLabel"]

/-- `subset_for_deduplication` from `app.py` lines 42-47. -/
def subset_for_deduplication : List String :=
  ["Entity", "Period", "Element",
   "DIM1", "VALUE1", "DIM2", "VALUE2", "DIM3", "VALUE3", "DIM4", "VALUE4",
   "DIM5", "VALUE5", "DIM6", "VALUE6", "DIM7", "VALUE7", "DIM8", "VALUE8",
   "DIM9", "VALUE9", "DIM10", "VALUE10"]

/-- `MAX_EXCEL_CELL_LENGTH` from `app.py` line 9. -/
def MAX_EXCEL_CELL_LENGTH : Nat := 32767

/-- `df.drop(columns=names)`: remove the named columns from header and rows. -/
def dropColumns (df : DataFrame) (names : List String) : DataFrame :=
  ⟨df.cols.filter (fun c => decide (c ∉ names)),
   df.rows.map (fun r => r.filter (fun p => decide (p.1 ∉ names)))⟩

/-- `cols_present` from `app.py` line 35. -/
def colsPresentOf (df : DataFrame) : List String :=
  columns_to_drop.filter (fun c => decide (c ∈ df.cols))

/-- `df_cleaned` from `app.py` line 36. -/
def cleanedOf (df : DataFrame) : DataFrame :=
  dropColumns df (colsPresentOf df)

/-- `valid_subset` from `app.py` line 50, applied to the cleaned frame. -/
def validSubset (df : DataFrame) : List String :=
  subset_for_deduplication.filter (fun c => decide (c ∈ df.cols))

/-- The dedup key of a row: its tuple of values over the effective key columns. -/
def keyOf (subset : List String) (r : Row) : List Cell :=
  subset.map (getCell r)

/-- First-occurrence-wins traversal behind pandas
`drop_duplicates(subset, keep='first')`: keep a row iff its key tuple was not
kept before. -/
def dedupAux (subset : List String) : List Row → List (List Cell) → List Row
  | [], _ => []
  | r :: rs, seen =>
    if keyOf subset r ∈ seen then dedupAux subset rs seen
    else r :: dedupAux subset rs (keyOf subset r :: seen)

/-- The message of the `ValueError` pandas raises from
`DataFrame.duplicated` when the column selection is empty. -/
def pandasValueError : String :=
  "ValueError: not enough values to unpack (expected 2, got 0)"

/-- pandas `df.drop_duplicates(subset=subset, keep='first')`: an empty frame is
returned unchanged; an empty `subset` on a non-empty frame raises `ValueError`;
otherwise the first row of each key tuple is kept, in order. -/
def dropDuplicates (subset : List String) (df : DataFrame) : Except String DataFrame :=
  if df.rows.isEmpty then .ok df
  else if subset.isEmpty then .error pandasValueError
  else .ok ⟨df.cols, dedupAux subset df.rows []⟩

/-- The in-place update `df_cleaned['Value'] = df_cleaned['Value'].astype(str).fillna('')`
restricted to one row: only the `Value` entries change. -/
def stringifyRow (r : Row) : Row :=
  r.map (fun p => if p.1 = "Value" then (p.1, astypeStrFillna p.2) else p)

/-- The length compared against the threshold in `app.py` line 63:
`df_cleaned['Value'].str.len()` of the (already stringified) cell. -/
def comparedValueLen (r : Row) : Nat :=
  (cellToStr (getCell r "Value")).length

/-- `long_value_mask` of `app.py` line 63 on one (already stringified) row:
whether the `Value` text is strictly longer than the threshold. -/
def long_value_mask (max_length : Nat) (r : Row) : Bool :=
  decide (comparedValueLen r > max_length)

/-- Lines 61-69 of `app.py`: if `Value` is a column, overwrite it with its
string form and split rows on `len > max_length`; otherwise the mask is all
`False`, so the overflow frame is empty and the primary frame is the input.
Returns `(df_overflow, df_excel)`. -/
def partitionStep (max_length : Nat) (df : DataFrame) : DataFrame × DataFrame :=
  if "Value" ∈ df.cols then
    (⟨df.cols, (df.rows.map stringifyRow).filter (long_value_mask max_length)⟩,
     ⟨df.cols, (df.rows.map stringifyRow).filter
        (fun r => !(long_value_mask max_length r))⟩)
  else
    (⟨df.cols, []⟩, df)

/-- CSV field quoting as done by `df.to_csv`. -/
def csvQuote (s : String) : String :=
  if s.any (fun c => c = ',' || c = '"' || c = '\n' || c = '\r') then
    "\"" ++ String.join (s.toList.map
      (fun c => if c = '"' then "\"\"" else String.singleton c)) ++ "\""
  else s

/-- A cell as written by `df.to_csv` (NaN becomes the empty field). -/
def cellToCsv : Cell → String
  | .na => ""
  | c => csvQuote (cellToStr c)

/-- `df.to_csv(index=False)`: header line then one line per row. -/
def toCsvString (df : DataFrame) : String :=
  String.intercalate "," (df.cols.map csvQuote) ++ "\n" ++
  String.join (df.rows.map (fun r =>
    String.intercalate "," (df.cols.map (fun c => cellToCsv (getCell r c))) ++ "\n"))

/-- An output payload: the overflow CSV text, or the frame encoded by
`to_excel` (single sheet, header row, one row per record). -/
inductive SerializedFile where
  | csvFile (content : String)
  | xlsxFile (df : DataFrame)
deriving DecidableEq

/-- The dictionary returned by `process_data`: `success` flag, log lines, and
the `files` entry (absent on failure returns). -/
structure PResult where
  success : Bool
  logs : List String
  files : Option (List (String × SerializedFile))
deriving DecidableEq

/-- Whether `df.to_excel` raises on a given frame (`some e` is the raised
exception's message): the xlsxwriter behavior is outside the embedding, so it
is an oracle parameter of the pipeline. -/
abbrev ExcelOracle := DataFrame → Option String

/-- Python `repr` of a list of strings, as interpolated into the drop log. -/
def pyStrList (l : List String) : String :=
  "[" ++ String.intercalate ", " (l.map (fun s => "\x27" ++ s ++ "\x27")) ++ "]"

/-- Log line of `app.py` line 25. -/
def readFailLog (e : String) : String :=
  "❌ Erreur lors de la lecture du fichier CSV : " ++ e

/-- Log line of `app.py` line 30. -/
def readOkLog (n : Nat) : String :=
  "✅ Fichier CSV lu avec succès. Nombre initial d\x27enregistrements : " ++ toString n

/-- Log line of `app.py` line 38. -/
def dropLog (cols : List String) : String :=
  "✅ Colonnes " ++ pyStrList cols ++ " supprimées."

/-- Log line of `app.py` line 55. -/
def dedupLog (removed remaining : Nat) : String :=
  "✅ Déduplication terminée. " ++ toString removed ++
  " doublon(s) retiré(s). Nombre d\x27enregistrements restants : " ++ toString remaining

/-- Log line of `app.py` line 71. -/
def analyseLog (overflowCount maxLength : Nat) : String :=
  "📊 Analyse des longueurs : " ++ toString overflowCount ++
  " enregistrement(s) dépassent " ++ toString maxLength ++ " caractères."

/-- Log line of `app.py` line 82. -/
def overflowReadyLog (n : Nat) : String :=
  "💾 " ++ toString n ++ " enregistrement(s) longs prêts à être téléchargés au format CSV."

/-- Log line of `app.py` line 92. -/
def excelReadyLog (n : Nat) : String :=
  "💾 " ++ toString n ++ " enregistrement(s) normaux prêts à être téléchargés au format Excel."

/-- Log line of `app.py` line 94. -/
def excelFailLog (e : String) : String :=
  "❌ Erreur lors de l\x27écriture du fichier Excel : " ++ e

/-- Log line of `app.py` line 99. -/
def excelEmptyLog : String :=
  "⚠️ Le DataFrame Excel est vide. Aucun fichier Excel ne sera créé."

/-- Log line of `app.py` line 102. -/
def doneLog : String :=
  "🎉 Traitement terminé avec succès."

/-- Lines 58-103 of `app.py`, the pipeline after a successful deduplication:
partition, serialization of both partitions, and the returned dictionary.
`df` is the parsed frame (for the initial count and the drop log) and
`df_dedup` the deduplicated frame. -/
def pipelineTail (df df_dedup : DataFrame) (excelErr : ExcelOracle)
    (max_length : Nat) : PResult :=
  let initial_count := df.rows.length
  let deduplicated_count := df_dedup.rows.length
  let df_overflow := (partitionStep max_length df_dedup).1
  let df_excel := (partitionStep max_length df_dedup).2
  let logs4 := [readOkLog initial_count, dropLog (colsPresentOf df),
    dedupLog (initial_count - deduplicated_count) deduplicated_count,
    analyseLog df_overflow.rows.length max_length]
  let results1 : List (String × SerializedFile) :=
    if df_overflow.rows.isEmpty then []
    else [("overflow_csv", .csvFile (toCsvString df_overflow))]
  let logs5 := logs4 ++ (if df_overflow.rows.isEmpty then []
    else [overflowReadyLog df_overflow.rows.length])
  if df_excel.rows.isEmpty then
    ⟨true, logs5 ++ [excelEmptyLog, doneLog], some results1⟩
  else
    match excelErr df_excel with
    | some e => ⟨false, logs5 ++ [excelFailLog e], none⟩
    | none => ⟨true,
        logs5 ++ [excelReadyLog df_excel.rows.length, doneLog],
        some (results1 ++ [("excel", .xlsxFile df_excel)])⟩

/-- `process_data` of `app.py` lines 12-103. The input is the outcome of
`pd.read_csv` on the uploaded bytes; `excelErr` is the `to_excel` oracle.
The overall value is `.error e` when an exception escapes the function
(the unguarded `drop_duplicates` call), `.ok` with the returned dictionary
otherwise. -/
def process_data (input : Except String DataFrame) (excelErr : ExcelOracle)
    (max_length : Nat) : Except String PResult :=
  match input with
  | .error e => .ok ⟨false, [readFailLog e], none⟩
  | .ok df =>
    match dropDuplicates (validSubset (cleanedOf df)) (cleanedOf df) with
    | .error e => .error e
    | .ok df_dedup => .ok (pipelineTail df df_dedup excelErr max_length)

/-- The length the specification text prescribes for the partition comparison:
text form of the `Value` cell with missing/null converted to the empty text.
Claim-side definition, written from the spec's words for comparison with
`comparedValueLen`. -/
def specValueLen (r : Row) : Nat :=
  match getCell r "Value" with
  | .na => ("" : String).length
  | c => (cellToStr c).length

/-- Input of the C1 evaluation: a parsable table with one row and no dedup
key column. -/
def dfC1 : DataFrame := ⟨["A"], [[("A", Cell.text "x")]]⟩

/-- Input of the C3 counterexample: a parsable table with one row and no dedup
key column. -/
def dfC3x : DataFrame := ⟨["B"], [[("B", Cell.text "y")]]⟩

/-- Input of the C7 counterexample: two duplicate rows, no dedup key column. -/
def dfC7x : DataFrame := ⟨["Z"], [[("Z", Cell.text "a")], [("Z", Cell.text "a")]]⟩

/-- A row whose `Value` cell is missing, for the C2 counterexample. -/
def rC2 : Row := [("Value", Cell.na)]

/-- Frame holding `rC2`, for the C2 counterexample. -/
def dfC2 : DataFrame := ⟨["Value"], [rC2]⟩

/-- An oracle for runs in which `to_excel` never raises. -/
def noThrow : ExcelOracle := fun _ => none

/-- The rows of `df_cleaned` at the moment of the partition (after the
in-place `Value` overwrite of line 62, if any). -/
def partitionInputRows (df : DataFrame) : List Row :=
  if "Value" ∈ df.cols then df.rows.map stringifyRow else df.rows

/-- Input of the C4 witness run: two rows with distinct `Entity` keys and
`Value` lengths 2 and 0. -/
def dfC4w : DataFrame :=
  ⟨["Entity", "Value"],
   [[("Entity", Cell.text "e1"), ("Value", Cell.text "ab")],
    [("Entity", Cell.text "e2"), ("Value", Cell.text "")]]⟩

/-- Oracle of the C4 witness run: `to_excel` always raises `boom`. -/
def oC4w : ExcelOracle := fun _ => some "boom"

/-- Input of the C9 witness run: one row, an `Entity` key, no `Value` column. -/
def dfC9w : DataFrame := ⟨["Entity"], [[("Entity", Cell.text "e")]]⟩

/-- Input of the C3 witness run: an `Entity` key column and no rows. -/
def dfC3w : DataFrame := ⟨["Entity"], []⟩

/-- A string of 32767 characters, for the C5 witness. -/
def maxLenStr : String := String.mk (List.replicate MAX_EXCEL_CELL_LENGTH 'a')

/-- A string of 32768 characters, for the C5 witness. -/
def overLenStr : String := String.mk (List.replicate (MAX_EXCEL_CELL_LENGTH + 1) 'a')

/-- Row at the threshold boundary (length exactly 32767). -/
def rC5a : Row := [("Value", Cell.text maxLenStr)]

/-- Row just over the threshold boundary (length 32768). -/
def rC5b : Row := [("Value", Cell.text overLenStr)]

/-- Frame holding the two boundary rows, for the C5 witness. -/
def dfC5w : DataFrame := ⟨["Value"], [rC5a, rC5b]⟩

/-- Input of the C7 witness run: duplicate and distinct `Entity` keys. -/
def dfC7w : DataFrame :=
  ⟨["Entity"],
   [[("Entity", Cell.text "a")], [("Entity", Cell.text "a")], [("Entity", Cell.text "b")]]⟩

/-- Row of the C10 witness run: an integer cell and a missing `Value` cell. -/
def rC10w : Row := [("Entity", Cell.int 7), ("Value", Cell.na)]

/-- Input of the C10 witness run. -/
def dfC10w : DataFrame := ⟨["Entity", "Value"], [rC10w]⟩

-- ## Helper lemmas

theorem length_filter_split {α : Type} (p : α → Bool) (l : List α) :
    (l.filter p).length + (l.filter (fun a => !(p a))).length = l.length := by
  induction l with
  | nil => rfl
  | cons a l ih =>
    cases hp : p a <;> simp [List.filter_cons, hp] <;> omega

theorem getCell_cons (n : String) (c : Cell) (r : Row) (q : String) :
    getCell ((n, c) :: r) q = if n = q then c else getCell r q := by
  by_cases h : n = q <;> simp [getCell, h]

theorem astypeStrFillna_eq (c : Cell) :
    astypeStrFillna c = Cell.text (cellToStr c) := by
  cases c <;> rfl

theorem stringifyRow_map_fst (r : Row) :
    (stringifyRow r).map Prod.fst = r.map Prod.fst := by
  induction r with
  | nil => rfl
  | cons p rest ih =>
    obtain ⟨n, c⟩ := p
    by_cases hn : n = "Value" <;> simp [stringifyRow, hn] <;>
      simpa [stringifyRow] using ih

theorem getCell_stringifyRow_value (r : Row) (h : "Value" ∈ r.map Prod.fst) :
    getCell (stringifyRow r) "Value" = astypeStrFillna (getCell r "Value") := by
  induction r with
  | nil => simp at h
  | cons p rest ih =>
    obtain ⟨n, c⟩ := p
    by_cases hn : n = "Value"
    · subst hn
      simp [stringifyRow, getCell_cons]
    · have h2 : "Value" ∈ rest.map Prod.fst := by
        simp only [List.map_cons, List.mem_cons] at h
        rcases h with h1 | h1
        · exact absurd h1.symm hn
        · exact h1
      have ih2 := ih h2
      simp only [stringifyRow, List.map_cons] at ih2 ⊢
      rw [if_neg hn, getCell_cons, getCell_cons, if_neg hn, if_neg hn]
      exact ih2

theorem getCell_stringifyRow_ne (r : Row) (q : String) (hq : q ≠ "Value") :
    getCell (stringifyRow r) q = getCell r q := by
  induction r with
  | nil => rfl
  | cons p rest ih =>
    obtain ⟨n, c⟩ := p
    simp only [stringifyRow, List.map_cons] at ih ⊢
    by_cases hn : n = "Value"
    · subst hn
      rw [if_pos rfl, getCell_cons, getCell_cons,
        if_neg (fun hh => hq hh.symm), if_neg (fun hh => hq hh.symm)]
      exact ih
    · rw [if_neg hn, getCell_cons, getCell_cons]
      by_cases hnq : n = q
      · rw [if_pos hnq, if_pos hnq]
      · rw [if_neg hnq, if_neg hnq]
        exact ih

theorem comparedValueLen_stringifyRow (r : Row) (h : "Value" ∈ r.map Prod.fst) :
    comparedValueLen (stringifyRow r) = (cellToStr (getCell r "Value")).length := by
  unfold comparedValueLen
  rw [getCell_stringifyRow_value r h, astypeStrFillna_eq]
  rfl

theorem partitionStep_of_value {df : DataFrame} (h : "Value" ∈ df.cols)
    (max_length : Nat) :
    partitionStep max_length df =
      (⟨df.cols, (df.rows.map stringifyRow).filter (long_value_mask max_length)⟩,
       ⟨df.cols, (df.rows.map stringifyRow).filter
          (fun r => !(long_value_mask max_length r))⟩) := by
  unfold partitionStep
  rw [if_pos h]

theorem partitionStep_of_no_value {df : DataFrame} (h : "Value" ∉ df.cols)
    (max_length : Nat) :
    partitionStep max_length df = (⟨df.cols, []⟩, df) := by
  unfold partitionStep
  rw [if_neg h]

theorem dedupAux_sublist (s : List String) (rows : List Row) :
    ∀ seen, (dedupAux s rows seen).Sublist rows := by
  induction rows with
  | nil => intro seen; simp [dedupAux]
  | cons r rs ih =>
    intro seen
    unfold dedupAux
    by_cases h : keyOf s r ∈ seen
    · rw [if_pos h]
      exact (ih seen).cons r
    · rw [if_neg h]
      exact (ih _).cons₂ r

theorem dedupAux_keys (s : List String) (rows : List Row) :
    ∀ seen, (∀ r ∈ dedupAux s rows seen, keyOf s r ∉ seen) ∧
      (dedupAux s rows seen).Pairwise (fun a b => keyOf s a ≠ keyOf s b) := by
  induction rows with
  | nil => intro seen; simp [dedupAux]
  | cons r rs ih =>
    intro seen
    unfold dedupAux
    by_cases h : keyOf s r ∈ seen
    · rw [if_pos h]
      exact ih seen
    · rw [if_neg h]
      obtain ⟨ihm, ihp⟩ := ih (keyOf s r :: seen)
      constructor
      · intro a ha
        rcases List.mem_cons.mp ha with g | g
        · subst g; exact h
        · intro gm
          exact ihm a g (List.mem_cons_of_mem _ gm)
      · refine List.pairwise_cons.mpr ⟨?_, ihp⟩
        intro a ha heq
        exact ihm a ha (by rw [← heq]; exact List.mem_cons_self _ _)

theorem dedupAux_fixed (s : List String) (l : List Row) :
    ∀ seen, (∀ r ∈ l, keyOf s r ∉ seen) →
      l.Pairwise (fun a b => keyOf s a ≠ keyOf s b) → dedupAux s l seen = l := by
  induction l with
  | nil => intro seen _ _; rfl
  | cons r rs ih =>
    intro seen hseen hpw
    unfold dedupAux
    rw [if_neg (hseen r (List.mem_cons_self _ _))]
    obtain ⟨hhead, htail⟩ := List.pairwise_cons.mp hpw
    congr 1
    refine ih _ ?_ htail
    intro a ha
    intro hmem
    rcases List.mem_cons.mp hmem with g | g
    · exact hhead a ha g.symm
    · exact hseen a (List.mem_cons_of_mem _ ha) g

theorem dedupAux_keeps_first (s : List String) (l1 : List Row) :
    ∀ (r : Row) (l2 : List Row) (seen : List (List Cell)),
      keyOf s r ∉ seen → (∀ a ∈ l1, keyOf s a ≠ keyOf s r) →
      r ∈ dedupAux s (l1 ++ r :: l2) seen := by
  induction l1 with
  | nil =>
    intro r l2 seen hseen _
    unfold dedupAux
    simp only [List.nil_append]
    rw [if_neg hseen]
    exact List.mem_cons_self _ _
  | cons a l1 ih =>
    intro r l2 seen hseen hfirst
    have hane : keyOf s a ≠ keyOf s r := hfirst a (List.mem_cons_self _ _)
    have hrest : ∀ b ∈ l1, keyOf s b ≠ keyOf s r :=
      fun b hb => hfirst b (List.mem_cons_of_mem _ hb)
    simp only [List.cons_append]
    unfold dedupAux
    by_cases h : keyOf s a ∈ seen
    · rw [if_pos h]
      exact ih r l2 seen hseen hrest
    · rw [if_neg h]
      refine List.mem_cons_of_mem _ (ih r l2 _ ?_ hrest)
      intro hmem
      rcases List.mem_cons.mp hmem with g | g
      · exact hane g.symm
      · exact hseen g

theorem dropDuplicates_cols {subset : List String} {df out : DataFrame}
    (h : dropDuplicates subset df = .ok out) : out.cols = df.cols := by
  unfold dropDuplicates at h
  split at h
  · cases h; rfl
  · split at h
    · exact Except.noConfusion h
    · cases h; rfl

theorem dropDuplicates_ok {subset : List String} (df : DataFrame)
    (h : subset ≠ [] ∨ df.rows = []) :
    ∃ out, dropDuplicates subset df = .ok out := by
  unfold dropDuplicates
  by_cases he : df.rows.isEmpty
  · rw [if_pos he]
    exact ⟨df, rfl⟩
  · rw [if_neg he]
    have hs : subset ≠ [] := by
      rcases h with h1 | h1
      · exact h1
      · exact absurd (by simp [h1]) he
    rw [if_neg (by simpa using hs)]
    exact ⟨_, rfl⟩

theorem process_data_ok (df df_dedup : DataFrame) (excelErr : ExcelOracle)
    (max_length : Nat)
    (hdd : dropDuplicates (validSubset (cleanedOf df)) (cleanedOf df) = .ok df_dedup) :
    process_data (.ok df) excelErr max_length =
      .ok (pipelineTail df df_dedup excelErr max_length) := by
  simp only [process_data, hdd]

-- ## Claim theorems

/-- Claim C6: the partition step places each row of the post-dedup table (in
its state at partition time, i.e. after the in-place `Value` stringification)
in exactly one of the overflow and primary frames: their row counts add up to
the table's row count, their union is the table's row list, and no row lies in
both. -/
theorem c6_partition_complete_disjoint (max_length : Nat) (df : DataFrame) :
    (partitionStep max_length df).1.rows.length
        + (partitionStep max_length df).2.rows.length = df.rows.length ∧
    (∀ r : Row, r ∈ partitionInputRows df ↔
      (r ∈ (partitionStep max_length df).1.rows ∨
       r ∈ (partitionStep max_length df).2.rows)) ∧
    (∀ r : Row, ¬(r ∈ (partitionStep max_length df).1.rows ∧
      r ∈ (partitionStep max_length df).2.rows)) := by
  by_cases h : "Value" ∈ df.cols
  · rw [partitionStep_of_value h]
    unfold partitionInputRows
    rw [if_pos h]
    refine ⟨?_, ?_, ?_⟩
    · have hl := length_filter_split (long_value_mask max_length)
        (df.rows.map stringifyRow)
      simpa using hl
    · intro r
      constructor
      · intro hr
        by_cases hp : long_value_mask max_length r = true
        · exact Or.inl (List.mem_filter.mpr ⟨hr, hp⟩)
        · exact Or.inr (List.mem_filter.mpr ⟨hr, by simpa using hp⟩)
      · rintro (hr | hr) <;> exact (List.mem_filter.mp hr).1
    · rintro r ⟨h1, h2⟩
      have g1 := (List.mem_filter.mp h1).2
      have g2 := (List.mem_filter.mp h2).2
      simp [g1] at g2
  · rw [partitionStep_of_no_value h]
    unfold partitionInputRows
    rw [if_neg h]
    refine ⟨by simp, ?_, by simp⟩
    intro r
    simp

/-- Claim C2 (amended): in the partition step, the length compared against the
threshold is the character length of the Python `str` form of the row's
`Value` cell, where a missing/null `Value` becomes the literal text `"nan"`
(length 3, because `astype(str)` runs before `fillna('')`); a row goes to
the overflow partition exactly when this length exceeds the threshold,
otherwise to the primary partition. -/
theorem c2_value_length_partition (df : DataFrame) (max_length : Nat) (r : Row)
    (hmem : r ∈ df.rows) (hcol : "Value" ∈ df.cols)
    (hrow : "Value" ∈ r.map Prod.fst) :
    comparedValueLen (stringifyRow r) = (cellToStr (getCell r "Value")).length ∧
    cellToStr Cell.na = "nan" ∧
    (stringifyRow r ∈ (partitionStep max_length df).1.rows ↔
      (cellToStr (getCell r "Value")).length > max_length) ∧
    (stringifyRow r ∈ (partitionStep max_length df).2.rows ↔
      ¬((cellToStr (getCell r "Value")).length > max_length)) := by
  have hkey := comparedValueLen_stringifyRow r hrow
  rw [partitionStep_of_value hcol]
  refine ⟨hkey, rfl, ?_, ?_⟩
  · constructor
    · intro hmemf
      have hmask := (List.mem_filter.mp hmemf).2
      simp only [long_value_mask, hkey, decide_eq_true_eq] at hmask
      exact hmask
    · intro hgt
      refine List.mem_filter.mpr ⟨List.mem_map_of_mem _ hmem, ?_⟩
      simp [long_value_mask, hkey, hgt]
  · constructor
    · intro hmemf
      have hmask := (List.mem_filter.mp hmemf).2
      simp only [long_value_mask, hkey, Bool.not_eq_true', decide_eq_false_iff_not]
        at hmask
      exact hmask
    · intro hle
      refine List.mem_filter.mpr ⟨List.mem_map_of_mem _ hmem, ?_⟩
      simp [long_value_mask, hkey, hle]

/-- Claim C2 counterexample: on a row whose `Value` cell is missing, the code
compares length 3 (the text `"nan"`), not the spec's empty-text length 0; at
threshold 2 the row lands in the overflow partition although its spec-side
length does not exceed the threshold. -/
theorem c2_counterexample :
    cellToStr (getCell rC2 "Value") = "nan" ∧
    specValueLen rC2 = 0 ∧
    comparedValueLen (stringifyRow rC2) = 3 ∧
    stringifyRow rC2 ∈ (partitionStep 2 dfC2).1.rows ∧
    ¬(specValueLen rC2 > 2) := by decide

/-- Claim C2 witness: the missing-`Value` row of `dfC2` is placed in the
overflow partition at threshold 2, via the amended theorem. -/
theorem c2_value_length_partition_witness :
    stringifyRow rC2 ∈ (partitionStep 2 dfC2).1.rows :=
  (c2_value_length_partition dfC2 2 rC2 (List.mem_cons_self _ _) (by decide)
    (by decide)).2.2.1.mpr (by decide)

/-- Claim C5: a row whose `Value` text length is exactly
`MAX_EXCEL_CELL_LENGTH` (32767) is placed in the primary partition, and one of
length 32768 in the overflow partition: the comparison is strict. -/
theorem c5_threshold_boundary (df : DataFrame) (r : Row)
    (hmem : r ∈ df.rows) (hcol : "Value" ∈ df.cols)
    (hrow : "Value" ∈ r.map Prod.fst) :
    ((cellToStr (getCell r "Value")).length = MAX_EXCEL_CELL_LENGTH →
      stringifyRow r ∈ (partitionStep MAX_EXCEL_CELL_LENGTH df).2.rows) ∧
    ((cellToStr (getCell r "Value")).length = MAX_EXCEL_CELL_LENGTH + 1 →
      stringifyRow r ∈ (partitionStep MAX_EXCEL_CELL_LENGTH df).1.rows) := by
  have hkey := comparedValueLen_stringifyRow r hrow
  rw [partitionStep_of_value hcol]
  constructor
  · intro hlen
    refine List.mem_filter.mpr ⟨List.mem_map_of_mem _ hmem, ?_⟩
    simp [long_value_mask, hkey, hlen]
  · intro hlen
    refine List.mem_filter.mpr ⟨List.mem_map_of_mem _ hmem, ?_⟩
    simp [long_value_mask, hkey, hlen]

/-- Claim C5 witness: in `dfC5w`, the 32767-character row is primary and the
32768-character row is overflow. -/
theorem c5_threshold_boundary_witness :
    stringifyRow rC5a ∈ (partitionStep MAX_EXCEL_CELL_LENGTH dfC5w).2.rows ∧
    stringifyRow rC5b ∈ (partitionStep MAX_EXCEL_CELL_LENGTH dfC5w).1.rows := by
  constructor
  · refine (c5_threshold_boundary dfC5w rC5a (List.mem_cons_self _ _)
      (by decide) (by decide)).1 ?_
    show (cellToStr (getCell rC5a "Value")).length = MAX_EXCEL_CELL_LENGTH
    have : getCell rC5a "Value" = Cell.text maxLenStr := rfl
    rw [this]
    show maxLenStr.length = MAX_EXCEL_CELL_LENGTH
    simp [maxLenStr, String.length]
  · refine (c5_threshold_boundary dfC5w rC5b
      (List.mem_cons_of_mem _ (List.mem_cons_self _ _)) (by decide) (by decide)).2 ?_
    show (cellToStr (getCell rC5b "Value")).length = MAX_EXCEL_CELL_LENGTH + 1
    have : getCell rC5b "Value" = Cell.text overLenStr := rfl
    rw [this]
    show overLenStr.length = MAX_EXCEL_CELL_LENGTH + 1
    simp [overLenStr, String.length]

/-- Claim C10: when `Value` is a column, the partition step overwrites it in
place with `astype(str)` before splitting (numbers render to their text form,
missing cells to the literal `"nan"`, and `fillna('')` is a no-op since no
null survives `astype(str)`); both output frames consist of the stringified
rows, the column set is unchanged, and all non-`Value` cells are unchanged. -/
theorem c10_value_stringify_frame_effect (df : DataFrame) (max_length : Nat)
    (hcol : "Value" ∈ df.cols) :
    (partitionStep max_length df).1.rows
        = (df.rows.map stringifyRow).filter (long_value_mask max_length) ∧
    (partitionStep max_length df).2.rows
        = (df.rows.map stringifyRow).filter (fun r => !(long_value_mask max_length r)) ∧
    (partitionStep max_length df).1.cols = df.cols ∧
    (partitionStep max_length df).2.cols = df.cols ∧
    (∀ c : Cell, astypeStrFillna c = Cell.text (cellToStr c)) ∧
    cellToStr Cell.na = "nan" ∧
    (∀ n : Int, cellToStr (Cell.int n) = toString n) ∧
    (∀ r : Row, "Value" ∈ r.map Prod.fst →
      getCell (stringifyRow r) "Value" = Cell.text (cellToStr (getCell r "Value"))) ∧
    (∀ (r : Row) (c : String), c ≠ "Value" →
      getCell (stringifyRow r) c = getCell r c) ∧
    (∀ r : Row, (stringifyRow r).map Prod.fst = r.map Prod.fst) := by
  rw [partitionStep_of_value hcol]
  refine ⟨rfl, rfl, rfl, rfl, astypeStrFillna_eq, rfl, fun n => rfl, ?_, ?_,
    stringifyRow_map_fst⟩
  · intro r h
    rw [getCell_stringifyRow_value r h, astypeStrFillna_eq]
  · intro r c h
    exact getCell_stringifyRow_ne r c h

/-- Claim C10 witness: in the witness row, the missing `Value` cell becomes
the text `"nan"` while the integer `Entity` cell is untouched. -/
theorem c10_value_stringify_frame_effect_witness :
    getCell (stringifyRow rC10w) "Value" = Cell.text "nan" ∧
    getCell (stringifyRow rC10w) "Entity" = Cell.int 7 := by
  obtain ⟨-, -, -, -, -, -, -, h8, h9, -⟩ :=
    c10_value_stringify_frame_effect dfC10w MAX_EXCEL_CELL_LENGTH (by decide)
  constructor
  · rw [h8 rC10w (by decide)]
    rfl
  · rw [h9 rC10w "Entity" (by decide)]
    rfl

/-- Claim C1, evaluation at the failing input: on a one-row table carrying
none of the dedup key columns the effective key is empty, and
`drop_duplicates(subset=[])` raises a `ValueError` that escapes
`process_data`; the table is not returned unchanged as the claim states. -/
theorem c1_empty_key_dedup_raises :
    validSubset (cleanedOf dfC1) = [] ∧
    dfC1.rows ≠ [] ∧
    process_data (.ok dfC1) noThrow MAX_EXCEL_CELL_LENGTH
      = .error pandasValueError :=
  ⟨rfl, by decide, rfl⟩

/-- Claim C3 counterexample: a parsable one-row table with no dedup key
column makes the unguarded `drop_duplicates` call raise, and the exception
propagates out of `process_data` instead of being converted into a
`success = False` result. -/
theorem c3_counterexample :
    process_data (.ok dfC3x) noThrow MAX_EXCEL_CELL_LENGTH
      = .error pandasValueError := rfl

/-- Claim C3 (amended): failures of parsing and of the Excel serialization
are caught inside `process_data` and converted into results; the only
exception that can escape is the `ValueError` from deduplication when the
effective key is empty on a non-empty table. On every input that does not
trigger that case, `process_data` returns a result. -/
theorem c3_exception_containment (input : Except String DataFrame)
    (excelErr : ExcelOracle) (max_length : Nat)
    (h : ∀ df, input = .ok df →
      validSubset (cleanedOf df) ≠ [] ∨ (cleanedOf df).rows = []) :
    ∃ r, process_data input excelErr max_length = .ok r := by
  cases input with
  | error e => exact ⟨_, rfl⟩
  | ok df =>
    obtain ⟨dd, hdd⟩ := dropDuplicates_ok (cleanedOf df) (h df rfl)
    exact ⟨_, process_data_ok df dd excelErr max_length hdd⟩

/-- Claim C3 witness: on the keyed empty table `dfC3w` the pipeline returns
a result (no exception escapes). -/
theorem c3_exception_containment_witness :
    ∃ r, process_data (.ok dfC3w) noThrow MAX_EXCEL_CELL_LENGTH = .ok r :=
  c3_exception_containment (.ok dfC3w) noThrow MAX_EXCEL_CELL_LENGTH
    (by
      intro df hdf
      injection hdf with h2
      subst h2
      right
      decide)

/-- Claim C7 counterexample: on a table with two duplicate rows and none of
the dedup key columns, the deduplication call raises instead of returning the
table (there is no dedup output at all, so dedup is not a fixed point there). -/
theorem c7_counterexample :
    dfC7x.rows ≠ [] ∧
    dropDuplicates (validSubset (cleanedOf dfC7x)) (cleanedOf dfC7x)
      = .error pandasValueError :=
  ⟨by decide, rfl⟩

/-- Claim C7 (amended): whenever the deduplication call does not raise (the
effective key is non-empty or the table has no rows), its output is a fixed
point of deduplication, a subsequence of the input rows (original order), has
pairwise-distinct key tuples, and contains every row that is the first
occurrence of its key tuple. -/
theorem c7_dedup_idempotent_first_wins (subset : List String) (df : DataFrame)
    (h : subset ≠ [] ∨ df.rows = []) :
    ∃ out, dropDuplicates subset df = .ok out ∧
      dropDuplicates subset out = .ok out ∧
      out.rows.Sublist df.rows ∧
      out.rows.Pairwise (fun a b => keyOf subset a ≠ keyOf subset b) ∧
      (∀ (l1 : List Row) (r : Row) (l2 : List Row), df.rows = l1 ++ r :: l2 →
        (∀ a ∈ l1, keyOf subset a ≠ keyOf subset r) → r ∈ out.rows) := by
  by_cases he : df.rows.isEmpty
  · have hnil : df.rows = [] := List.isEmpty_iff.mp he
    refine ⟨df, ?_, ?_, List.Sublist.refl _, ?_, ?_⟩
    · unfold dropDuplicates
      rw [if_pos he]
    · unfold dropDuplicates
      rw [if_pos he]
    · rw [hnil]
      exact List.Pairwise.nil
    · intro l1 r l2 heq _
      rw [hnil] at heq
      exact absurd heq (by simp)
  · have hs : subset ≠ [] := by
      rcases h with h1 | h1
      · exact h1
      · exact absurd (by simp [h1]) he
    refine ⟨⟨df.cols, dedupAux subset df.rows []⟩, ?_, ?_, ?_, ?_, ?_⟩
    · unfold dropDuplicates
      rw [if_neg he, if_neg (by simpa using hs)]
    · unfold dropDuplicates
      by_cases h2 : (dedupAux subset df.rows []).isEmpty
      · dsimp only
        rw [if_pos h2]
      · dsimp only
        rw [if_neg h2, if_neg (by simpa using hs)]
        have hfix := dedupAux_fixed subset (dedupAux subset df.rows []) []
          (by intro a _ hmem; simp at hmem)
          ((dedupAux_keys subset df.rows []).2)
        rw [hfix]
    · exact dedupAux_sublist subset df.rows []
    · exact (dedupAux_keys subset df.rows []).2
    · intro l1 r l2 heq hfirst
      show r ∈ dedupAux subset df.rows []
      rw [heq]
      exact dedupAux_keeps_first subset l1 r l2 [] (by simp) hfirst

/-- Claim C7 witness: on a keyed three-row table with one duplicate, the
amended dedup properties hold. -/
theorem c7_dedup_idempotent_first_wins_witness :
    ∃ out, dropDuplicates ["Entity"] dfC7w = .ok out ∧
      dropDuplicates ["Entity"] out = .ok out ∧
      out.rows.Sublist dfC7w.rows ∧
      out.rows.Pairwise (fun a b => keyOf ["Entity"] a ≠ keyOf ["Entity"] b) ∧
      (∀ (l1 : List Row) (r : Row) (l2 : List Row), dfC7w.rows = l1 ++ r :: l2 →
        (∀ a ∈ l1, keyOf ["Entity"] a ≠ keyOf ["Entity"] r) → r ∈ out.rows) :=
  c7_dedup_idempotent_first_wins ["Entity"] dfC7w (Or.inl (by decide))

/-- Claim C8: an unparsable input makes `process_data` return immediately a
`success = False` result with exactly one diagnostic log line and no files
entry, whatever the serialization oracle and threshold are. -/
theorem c8_parse_failure_immediate (e : String) (excelErr : ExcelOracle)
    (max_length : Nat) :
    process_data (.error e) excelErr max_length
      = .ok ⟨false, [readFailLog e], none⟩ ∧
    [readFailLog e].length = 1 :=
  ⟨rfl, rfl⟩

/-- Claim C4: when the primary (Excel) partition is non-empty and its
serialization raises, `process_data` returns a `success = False` result whose
logs are those accumulated so far plus the Excel failure line, and with no
files entry at all: the overflow artifact, even if already produced into the
results dictionary, is not returned. -/
theorem c4_excel_failure_discards_artifacts (df dd : DataFrame)
    (excelErr : ExcelOracle) (max_length : Nat) (e : String)
    (hdd : dropDuplicates (validSubset (cleanedOf df)) (cleanedOf df) = .ok dd)
    (hne : (partitionStep max_length dd).2.rows ≠ [])
    (herr : excelErr (partitionStep max_length dd).2 = some e) :
    process_data (.ok df) excelErr max_length =
      .ok ⟨false,
        [readOkLog df.rows.length, dropLog (colsPresentOf df),
         dedupLog (df.rows.length - dd.rows.length) dd.rows.length,
         analyseLog (partitionStep max_length dd).1.rows.length max_length] ++
        (if (partitionStep max_length dd).1.rows.isEmpty then []
         else [overflowReadyLog (partitionStep max_length dd).1.rows.length]) ++
        [excelFailLog e],
        none⟩ := by
  rw [process_data_ok df dd excelErr max_length hdd]
  simp only [pipelineTail]
  rw [if_neg (by simpa using hne), herr]

/-- Claim C4 witness: on `dfC4w` at threshold 0 with a raising oracle, the
run fails with no files although the overflow partition was non-empty. -/
theorem c4_excel_failure_discards_artifacts_witness :
    process_data (.ok dfC4w) oC4w 0 =
      .ok ⟨false,
        [readOkLog dfC4w.rows.length, dropLog (colsPresentOf dfC4w),
         dedupLog (dfC4w.rows.length - dfC4w.rows.length) dfC4w.rows.length,
         analyseLog (partitionStep 0 dfC4w).1.rows.length 0] ++
        (if (partitionStep 0 dfC4w).1.rows.isEmpty then []
         else [overflowReadyLog (partitionStep 0 dfC4w).1.rows.length]) ++
        [excelFailLog "boom"],
        none⟩ :=
  c4_excel_failure_discards_artifacts dfC4w dfC4w oC4w 0 "boom"
    rfl (by decide) rfl

/-- Claim C9: on a parsable table without a `Value` column (and a run in
which dedup does not raise and `to_excel` does not raise), the overflow
partition is empty, the returned files contain no overflow artifact, and if
the post-dedup table is non-empty the primary artifact is exactly the frame
holding all post-dedup rows. -/
theorem c9_missing_value_column (df dd : DataFrame) (excelErr : ExcelOracle)
    (max_length : Nat)
    (hval : "Value" ∉ df.cols)
    (hdd : dropDuplicates (validSubset (cleanedOf df)) (cleanedOf df) = .ok dd)
    (hser : excelErr (partitionStep max_length dd).2 = none) :
    (partitionStep max_length dd).1.rows = [] ∧
    ∃ r, process_data (.ok df) excelErr max_length = .ok r ∧
      r.success = true ∧
      ∃ fs, r.files = some fs ∧
        fs.lookup "overflow_csv" = none ∧
        (dd.rows ≠ [] → fs.lookup "excel" = some (.xlsxFile dd)) := by
  have hvc : "Value" ∉ (cleanedOf df).cols := by
    intro hmem
    have hmem2 : "Value" ∈ df.cols := by
      simp only [cleanedOf, dropColumns, List.mem_filter] at hmem
      exact hmem.1
    exact hval hmem2
  have hvd : "Value" ∉ dd.cols := by
    rw [dropDuplicates_cols hdd]
    exact hvc
  have hps := partitionStep_of_no_value hvd max_length
  constructor
  · rw [hps]
  · have hser2 : excelErr dd = none := by
      rw [hps] at hser
      exact hser
    rw [process_data_ok df dd excelErr max_length hdd]
    simp only [pipelineTail, hps]
    by_cases hrows : dd.rows = []
    · rw [if_pos (by simpa using hrows)]
      refine ⟨_, rfl, rfl, _, rfl, ?_, ?_⟩
      · simp
      · intro hcontra
        exact absurd hrows hcontra
    · rw [if_neg (by simpa using hrows), hser2]
      refine ⟨_, rfl, rfl, _, rfl, ?_, ?_⟩
      · simp
      · intro _
        simp

/-- Claim C9 witness: on the one-row `Value`-less table `dfC9w`, the run
succeeds with only a primary artifact holding the post-dedup row. -/
theorem c9_missing_value_column_witness :
    (partitionStep MAX_EXCEL_CELL_LENGTH dfC9w).1.rows = [] ∧
    ∃ r, process_data (.ok dfC9w) noThrow MAX_EXCEL_CELL_LENGTH = .ok r ∧
      r.success = true ∧
      ∃ fs, r.files = some fs ∧
        fs.lookup "overflow_csv" = none ∧
        (dfC9w.rows ≠ [] → fs.lookup "excel" = some (.xlsxFile dfC9w)) :=
  c9_missing_value_column dfC9w dfC9w noThrow MAX_EXCEL_CELL_LENGTH
    (by decide) rfl rfl

end ExportDataESG
